import Mathlib

/-!
Verification of the gluon plumbing notebook.

The notebook builds a three layer multilayer perceptron in two styles: a
Sequential container chaining Dense layers, and an explicit Block subclass
called MLP whose forward pass applies the relu activation by hand.  We embed
the vectors the network consumes as lists of integers, a Dense layer as its
weight matrix, bias vector and activation flag, a Block as its forward
function, and Sequential as the list of registered children with the forward
loop the notebook quotes.  Deferred parameter materialization, a feature of
the external framework that the notebook demonstrates, is modelled from the
spec as a small parameter state machine.
-/

namespace Plumbing

/-- Scalar rectified linear unit, the operation behind every relu in the
notebook. -/
def reluI (x : Int) : Int := max x 0

/-- Elementwise relu on a vector, the framework call nd.relu used inside
MLP.forward. -/
def ndRelu (x : List Int) : List Int := x.map reluI

/-- Dot product of a weight row with an input vector. -/
def dot (w x : List Int) : Int := (w.zip x).foldl (fun acc p => acc + p.1 * p.2) 0

/-- Parameters of a fully connected Dense layer: the weight matrix as a list
of rows, one row per output unit, the bias vector, and whether the layer was
constructed with the relu activation. -/
structure DenseParams where
  weight : List (List Int)
  bias : List Int
  actRelu : Bool

/-- Forward computation of a Dense layer: the affine map, followed by relu
when the layer carries the activation. -/
def DenseParams.apply (d : DenseParams) (x : List Int) : List Int :=
  let y := (d.weight.zip d.bias).map (fun p => dot p.1 x + p.2)
  if d.actRelu then ndRelu y else y

/-- A gluon Block, seen through its forward pass. -/
structure Block where
  forward : List Int → List Int

/-- Calling a Block object like a function: per the notebook, the method
behind net(data) simply delegates to the forward method. -/
def Block.call (b : Block) (x : List Int) : List Int := b.forward x

/-- The Block of a Dense layer. -/
def denseBlock (d : DenseParams) : Block := ⟨d.apply⟩

/-- A Sequential container maintains the list of its registered children. -/
structure Sequential where
  children : List Block

/-- The empty container produced by gluon.nn.Sequential(). -/
def Sequential.empty : Sequential := ⟨[]⟩

/-- Sequential.add registers one more child at the end of the list. -/
def Sequential.add (s : Sequential) (b : Block) : Sequential := ⟨s.children ++ [b]⟩

/-- Sequential.forward as quoted in the notebook: run through the children in
order, feeding each child the output of the previous one, and return the last
output. -/
def Sequential.forward (s : Sequential) (x : List Int) : List Int :=
  s.children.foldl (fun acc b => b.call acc) x

/-- Registering a whole list of blocks by successive add calls. -/
def addAll (s : Sequential) (cs : List Block) : Sequential :=
  cs.foldl Sequential.add s

/-- Composition of the children in registration order, written as the claim
reads it: the function taking x to bn applied to dots applied to b1 x. -/
def chainComp (cs : List Block) : List Int → List Int :=
  cs.foldr (fun b f => f ∘ b.forward) id

/-- The net1 of the notebook, holding the given weights and biases: a
Sequential of Dense 128 with relu, Dense 64 with relu, and Dense 10. -/
def net1Of (w0 w1 w2 : List (List Int)) (c0 c1 c2 : List Int) : Sequential :=
  ((Sequential.empty.add (denseBlock ⟨w0, c0, true⟩)).add
      (denseBlock ⟨w1, c1, true⟩)).add (denseBlock ⟨w2, c2, false⟩)

/-- The MLP Block subclass of the notebook: three Dense children named dense0,
dense1 and dense2, none of which carries a built in activation. -/
structure MLP where
  dense0 : DenseParams
  dense1 : DenseParams
  dense2 : DenseParams

/-- MLP.forward as written in the notebook: relu of dense0, relu of dense1,
then dense2. -/
def MLP.forward (m : MLP) (x : List Int) : List Int :=
  m.dense2.apply (ndRelu (m.dense1.apply (ndRelu (m.dense0.apply x))))

/-- An MLP whose children hold the given weights and biases; as in the
notebook no child carries an activation. -/
def mlpOf (w0 w1 w2 : List (List Int)) (c0 c1 c2 : List Int) : MLP :=
  ⟨⟨w0, c0, false⟩, ⟨w1, c1, false⟩, ⟨w2, c2, false⟩⟩

/-- MLP.forward with the receiver threaded as explicit state.  The source
body only rebinds the local variable x and never writes to self, so the
translation returns the receiver unchanged next to the result. -/
def MLP.forwardS (m : MLP) (x : List Int) : MLP × List Int :=
  let x1 := ndRelu (m.dense0.apply x)
  let x2 := ndRelu (m.dense1.apply x1)
  (m, m.dense2.apply x2)

/-- Rowwise application of forward to a batch of inputs, the semantics of a
Dense network on a two dimensional array of n rows. -/
def MLP.forwardBatch (m : MLP) (xs : List (List Int)) : List (List Int) :=
  xs.map m.forward

/-- Dense forward as the framework exposes it, with the failure the framework
raises when the input length does not match the weight rows or the bias does
not match the weight. -/
def DenseParams.applyE (d : DenseParams) (x : List Int) : Option (List Int) :=
  if (∀ row ∈ d.weight, row.length = x.length) ∧ d.bias.length = d.weight.length
  then some (d.apply x) else none

/-- MLP.forward with every framework call fallible.  The source body chains
the three Dense calls and the two relu calls with no try, no raise and no
recovery branch, so a failure in any call surfaces unchanged. -/
def MLP.forwardE (m : MLP) (x : List Int) : Option (List Int) :=
  (m.dense0.applyE x).bind fun y0 =>
    (m.dense1.applyE (ndRelu y0)).bind fun y1 =>
      m.dense2.applyE (ndRelu y1)

/-- Modelled from the spec: a gluon Parameter as seen through deferred shape
inference.  The framework Parameter class is not part of this repository;
following the spec, a parameter carries its output units, an input
dimensionality that is zero while still unknown, whether an initializer has
been recorded for it, whether its storage has been materialized, and whether
the recorded initializer has actually been invoked. -/
structure Param where
  units : Nat
  inUnits : Nat
  initRecorded : Bool
  materialized : Bool
  initInvoked : Bool

deriving instance DecidableEq for Param

/-- Shape of a parameter as printed by collect_params: output units paired
with input units, a zero second component marking an unknown shape. -/
def Param.shape (p : Param) : Nat × Nat := (p.units, p.inUnits)

/-- Modelled from the spec: initializing a parameter whose shape is not fully
known only makes a note of which initializer to associate with it, while a
parameter with fully known shape is materialized and its initializer invoked
at once. -/
def Param.initNow (p : Param) : Param :=
  if p.inUnits = 0 then
    { p with initRecorded := true }
  else
    { p with initRecorded := true, materialized := true, initInvoked := true }

/-- Modelled from the spec: shape inference at the first forward call.  A not
yet materialized parameter learns its input dimensionality from the observed
data, its storage is materialized, and the recorded initializer is invoked. -/
def Param.onFirstInput (p : Param) (d : Nat) : Param :=
  if p.materialized then p
  else { p with inUnits := d, materialized := true, initInvoked := p.initRecorded }

/-- Modelled from the spec: collect_params together with its initializing
method visits every parameter of the network. -/
def initAllParams (ps : List Param) : List Param := ps.map Param.initNow

/-- Modelled from the spec: the first forward pass feeds the observed input
dimensionality to the first layer and each layer's unit count to the next. -/
def inferAll (d : Nat) : List Param → List Param
  | [] => []
  | p :: rest => p.onFirstInput d :: inferAll p.units rest

/-- Weight parameters of net1 right after construction: shapes 128 by 0,
64 by 0 and 10 by 0, nothing recorded, materialized or invoked. -/
def net1WeightParams : List Param :=
  [⟨128, 0, false, false, false⟩, ⟨64, 0, false, false, false⟩,
    ⟨10, 0, false, false, false⟩]

/-- Weight parameters of net2, built with explicit in_units 784, 128 and 64:
shapes fully known from construction. -/
def net2WeightParams : List Param :=
  [⟨128, 784, false, false, false⟩, ⟨64, 128, false, false, false⟩,
    ⟨10, 64, false, false, false⟩]

/-- Forward of a Sequential whose children list is known equals the chained
composition of the children. -/
theorem forward_eq_chainComp : ∀ (cs : List Block) (x : List Int),
    Sequential.forward ⟨cs⟩ x = chainComp cs x := by
  intro cs
  induction cs with
  | nil => intro x; rfl
  | cons c rest ih =>
    intro x
    have h1 : Sequential.forward ⟨c :: rest⟩ x = Sequential.forward ⟨rest⟩ (c.call x) := rfl
    have h2 : chainComp (c :: rest) x = chainComp rest (c.forward x) := rfl
    rw [h1, h2, ih (c.call x)]
    rfl

/-- Successive add calls on a container append the blocks to its children. -/
theorem addAll_children : ∀ (cs : List Block) (s : Sequential),
    (addAll s cs).children = s.children ++ cs := by
  intro cs
  induction cs with
  | nil => intro s; simp [addAll]
  | cons c rest ih =>
    intro s
    have h1 : addAll s (c :: rest) = addAll (s.add c) rest := rfl
    rw [h1, ih (s.add c)]
    simp [Sequential.add]

/-- Parameters run through deferred shape inference end up materialized with
their initializer invoked, provided each was unmaterialized with an
initializer recorded. -/
theorem inferAll_materializes : ∀ (qs : List Param) (d : Nat),
    (∀ q ∈ qs, q.materialized = false ∧ q.initRecorded = true) →
    ∀ p ∈ inferAll d qs, p.materialized = true ∧ p.initInvoked = true := by
  intro qs
  induction qs with
  | nil => intro d _ p hp; simp [inferAll] at hp
  | cons q rest ih =>
    intro d h p hp
    simp only [inferAll, List.mem_cons] at hp
    rcases hp with rfl | hp
    · obtain ⟨hm, hr⟩ := h q (List.mem_cons_self q rest)
      simp [Param.onFirstInput, hm, hr]
    · exact ih q.units (fun r hrr => h r (List.mem_cons_of_mem q hrr)) p hp

/-- C1: the Sequential network net1 chaining Dense 128 with relu, Dense 64
with relu and Dense 10 computes the same function as the MLP Block subclass
that applies relu manually in forward, whenever both hold the same weight and
bias values. -/
theorem net1_equiv_mlp (w0 w1 w2 : List (List Int)) (c0 c1 c2 : List Int)
    (x : List Int) :
    (net1Of w0 w1 w2 c0 c1 c2).forward x = (mlpOf w0 w1 w2 c0 c1 c2).forward x := rfl

/-- C4: MLP.forward, the only function this repository defines, returns for
every input exactly the composition dense2 of relu of dense1 of relu of
dense0, each stage a call into the framework. -/
theorem mlp_forward_composition (m : MLP) (x : List Int) :
    m.forward x =
      (denseBlock m.dense2).call
        (ndRelu ((denseBlock m.dense1).call
          (ndRelu ((denseBlock m.dense0).call x)))) := rfl

/-- C6: MLP.forward introduces no state of its own: with the receiver
threaded explicitly it returns the network unchanged, and the result is the
pure function of the input and the layer parameters. -/
theorem mlp_forward_pure (m : MLP) (x : List Int) :
    (m.forwardS x).1 = m ∧ (m.forwardS x).2 = m.forward x := ⟨rfl, rfl⟩

/-- C7: a Sequential whose children were registered by successive add calls
applies each child to the output of the previous one, in registration order,
and returns the last child's output; that is, its forward is the chained
composition of the children. -/
theorem sequential_forward_chains (cs : List Block) (x : List Int) :
    (addAll Sequential.empty cs).forward x = chainComp cs x := by
  have h : addAll Sequential.empty cs = ⟨cs⟩ := by
    have := addAll_children cs Sequential.empty
    cases haa : addAll Sequential.empty cs
    rw [haa] at this
    simp [Sequential.empty] at this
    rw [this]
  rw [h, forward_eq_chainComp]

/-- C8: calling a Block object as a function is identical to calling its
forward method. -/
theorem block_call_eq_forward (b : Block) (x : List Int) :
    b.call x = b.forward x := rfl

/-- C2: for a network whose Dense layers were created without in_units,
running the initializing call over collect_params materializes no parameter:
every shape retains its zero input dimension and no initializer has run,
though each is now recorded; the parameters are materialized and the recorded
initializer invoked only at the first forward call on real input. -/
theorem deferred_materialization (ps : List Param) (d : Nat)
    (h : ∀ p ∈ ps, p.inUnits = 0 ∧ p.materialized = false ∧ p.initInvoked = false) :
    (∀ p ∈ initAllParams ps,
        p.shape.2 = 0 ∧ p.materialized = false ∧ p.initInvoked = false ∧
          p.initRecorded = true) ∧
      ∀ p ∈ inferAll d (initAllParams ps),
        p.materialized = true ∧ p.initInvoked = true := by
  constructor
  · intro p hp
    simp only [initAllParams, List.mem_map] at hp
    obtain ⟨q, hq, rfl⟩ := hp
    obtain ⟨h1, h2, h3⟩ := h q hq
    simp [Param.initNow, Param.shape, h1, h2, h3]
  · apply inferAll_materializes
    intro q hq
    simp only [initAllParams, List.mem_map] at hq
    obtain ⟨r, hr, rfl⟩ := hq
    obtain ⟨h1, h2, h3⟩ := h r hr
    simp [Param.initNow, h1, h2]

/-- Witness for C2 at the weight parameters of net1 and the observed MNIST
input dimensionality 784. -/
theorem deferred_materialization_witness :
    (∀ p ∈ initAllParams net1WeightParams,
        p.shape.2 = 0 ∧ p.materialized = false ∧ p.initInvoked = false ∧
          p.initRecorded = true) ∧
      ∀ p ∈ inferAll 784 (initAllParams net1WeightParams),
        p.materialized = true ∧ p.initInvoked = true :=
  deferred_materialization net1WeightParams 784 (by decide)

/-- C3: with every Dense layer built with explicit in_units 784, 128 and 64,
all parameter shapes are fully determined at construction, and the
initializing call over collect_params materializes and initializes every
parameter before any input has been observed. -/
theorem manual_shape_full_init :
    net2WeightParams.map Param.shape = [(128, 784), (64, 128), (10, 64)] ∧
      ∀ p ∈ initAllParams net2WeightParams,
        p.materialized = true ∧ p.initInvoked = true ∧ p.shape.2 ≠ 0 := by
  decide

/-- C5: the repository defines no error handling of its own; every failure
surfaced by MLP.forward originates inside one of the three framework Dense
calls, on the argument the pipeline actually passed it. -/
theorem mlp_errors_from_framework (m : MLP) (x : List Int)
    (h : m.forwardE x = none) :
    m.dense0.applyE x = none ∨
      (∃ y0, m.dense0.applyE x = some y0 ∧ m.dense1.applyE (ndRelu y0) = none) ∨
      (∃ y0 y1, m.dense0.applyE x = some y0 ∧
        m.dense1.applyE (ndRelu y0) = some y1 ∧
        m.dense2.applyE (ndRelu y1) = none) := by
  unfold MLP.forwardE at h
  cases h0 : m.dense0.applyE x with
  | none => exact Or.inl rfl
  | some y0 =>
    rw [h0, Option.some_bind] at h
    cases h1 : m.dense1.applyE (ndRelu y0) with
    | none => exact Or.inr (Or.inl ⟨y0, rfl, h1⟩)
    | some y1 =>
      rw [h1, Option.some_bind] at h
      exact Or.inr (Or.inr ⟨y0, y1, rfl, h1, h⟩)

/-- Witness for C5: an MLP whose first Dense expects two inputs, fed a one
element vector, fails inside the first framework call. -/
theorem mlp_errors_from_framework_witness :
    (mlpOf [[1, 1]] [[1]] [[1]] [0] [0] [0]).dense0.applyE [3] = none ∨
      (∃ y0, (mlpOf [[1, 1]] [[1]] [[1]] [0] [0] [0]).dense0.applyE [3] = some y0 ∧
        (mlpOf [[1, 1]] [[1]] [[1]] [0] [0] [0]).dense1.applyE (ndRelu y0) = none) ∨
      (∃ y0 y1, (mlpOf [[1, 1]] [[1]] [[1]] [0] [0] [0]).dense0.applyE [3] = some y0 ∧
        (mlpOf [[1, 1]] [[1]] [[1]] [0] [0] [0]).dense1.applyE (ndRelu y0) = some y1 ∧
        (mlpOf [[1, 1]] [[1]] [[1]] [0] [0] [0]).dense2.applyE (ndRelu y1) = none) :=
  mlp_errors_from_framework (mlpOf [[1, 1]] [[1]] [[1]] [0] [0] [0]) [3] (by decide)

/-- C9: when the last Dense layer holds 10 units, a batch of n input rows
yields n output rows of 10 entries each. -/
theorem mlp_output_shape (m : MLP) (xs : List (List Int))
    (hw : m.dense2.weight.length = 10) (hb : m.dense2.bias.length = 10) :
    (m.forwardBatch xs).length = xs.length ∧
      ∀ y ∈ m.forwardBatch xs, y.length = 10 := by
  refine ⟨by simp [MLP.forwardBatch], ?_⟩
  intro y hy
  simp only [MLP.forwardBatch, List.mem_map] at hy
  obtain ⟨x, hx, rfl⟩ := hy
  show (m.forward x).length = 10
  simp only [MLP.forward, DenseParams.apply]
  cases hA : m.dense2.actRelu <;>
    simp [hA, ndRelu, List.length_zip, hw, hb]

/-- Witness for C9: a concrete MLP whose last Dense has 10 units, on a one
row batch. -/
theorem mlp_output_shape_witness :
    ((mlpOf [[1]] [[1]] (List.replicate 10 [1]) [0] [0]
          (List.replicate 10 0)).forwardBatch [[3]]).length =
        ([[3]] : List (List Int)).length ∧
      ∀ y ∈ (mlpOf [[1]] [[1]] (List.replicate 10 [1]) [0] [0]
          (List.replicate 10 0)).forwardBatch [[3]], y.length = 10 :=
  mlp_output_shape
    (mlpOf [[1]] [[1]] (List.replicate 10 [1]) [0] [0] (List.replicate 10 0))
    [[3]] (by decide) (by decide)

end Plumbing
